import Mathlib

/-!
Shallow embedding of `src/claude_pdf_extraction.py`: the `PDFTableExtractor`
and `AdaptiveExtractor` classes.  Python strings are modelled as `String`,
with the string operations the code uses (`str.lower`, `str.split`,
substring membership `in`) implemented over the underlying character lists;
Python floats (confidence scores) are modelled as `ℚ`; Python dicts keyed by
pattern fingerprints are modelled as association lists; the mutable
`self.extraction_history` / `self.learned_patterns` state is passed
explicitly through `ExtractorState` / `AdaptiveState`.
-/

namespace ClaudePdf

/-- Python `sub in s` (substring membership) over character lists. -/
def containsSub : List Char → List Char → Bool
  | [], sub => sub.isEmpty
  | c :: rest, sub => sub.isPrefixOf (c :: rest) || containsSub rest sub

/-- Python `s.lower()`: the character list of `s`, lower-cased. -/
def pyLower (s : String) : List Char := s.data.map Char.toLower

/-- Helper for `pyWords`: split a character list on whitespace runs,
dropping empty pieces, exactly as Python `str.split()` with no argument. -/
def words_aux : List Char → List Char → List (List Char)
  | [], acc => if acc.isEmpty then [] else [acc.reverse]
  | c :: rest, acc =>
    if c.isWhitespace then
      (if acc.isEmpty then words_aux rest [] else acc.reverse :: words_aux rest [])
    else words_aux rest (c :: acc)

/-- Python `title.lower().split()`: lower-cased whitespace-separated words. -/
def pyWords (s : String) : List (List Char) := words_aux (pyLower s) []

/-- Python `os.path.basename`: the part of the path after the last slash. -/
def basename (path : String) : String := (path.splitOn "/").getLastD ""

/-- The `relationships` dict attached to a table by
`PDFTableExtractor._enhance_context`. -/
structure Relationships where
  document_section : String
  related_tables : List String
  references : List String
deriving DecidableEq, Repr

/-- The `ExtractedTable` dataclass.  Cell values (Python `Any`) are strings,
as in every value the code constructs; `notes`, `relationships` and `totals`
default to `None` (`Option`); `totals` is a dict modelled as an ordered
association list. -/
structure ExtractedTable where
  table_id : Nat
  page : Nat
  title : String
  confidence : ℚ
  headers : List String
  data : List (List String)
  context : String
  notes : Option (List String) := none
  relationships : Option Relationships := none
  totals : Option (List (String × String)) := none
deriving DecidableEq, Repr

/-- The configuration dict recognised by `PDFTableExtractor.__init__`. -/
structure Config where
  confidence_threshold : ℚ
  exclude_headers : Bool
  capture_context : Bool
  enable_learning : Bool
  parallel_agents : Nat
deriving DecidableEq, Repr

/-- `PDFTableExtractor._default_config`. -/
def default_config : Config :=
  { confidence_threshold := 95
    exclude_headers := true
    capture_context := true
    enable_learning := true
    parallel_agents := 5 }

/-- The dict returned by `PDFTableExtractor._analyze_structure`. -/
structure DocStructure where
  has_tables : Bool
  table_pages : List Nat
  has_letterhead : Bool
  has_complex_tables : Bool
  document_type : String
deriving DecidableEq, Repr

/-- `PDFTableExtractor._analyze_structure`: returns a fixed structure
analysis, ignoring the path. -/
def analyze_structure (_pdf_path : String) : DocStructure :=
  { has_tables := true
    table_pages := [1, 5, 15, 16]
    has_letterhead := true
    has_complex_tables := true
    document_type := "engineering_proposal" }

/-- The single hard-coded table built by `PDFTableExtractor._extract_tables`. -/
def table1 : ExtractedTable :=
  { table_id := 1
    page := 1
    title := "Table 1: Summary of Project Costs by Task"
    confidence := 100
    headers := ["Task No.", "Description", "Totals (CAD$)"]
    data :=
      [["100", "Design Review of Decommissioning/Closure Plans for Dams", "$212,000"],
       ["200", "Independent Dam Safety Risk Review", "$235,400"],
       ["300", "Audit of Emergency Plans for Dams", "$135,900"],
       ["400", "Additional Tasks", "$73,100"],
       ["500", "Site Visit, Meetings, and Project Management", "$142,900"]]
    context := "High-level summary of all project tasks and costs"
    notes := some ["All costs in Canadian dollars"]
    relationships := none
    totals := some [("Total Cost", "$799,300 CAD")] }

/-- `PDFTableExtractor._extract_tables`: returns the fixed list `[table1]`,
ignoring both the path and the structure analysis. -/
def extract_tables (_pdf_path : String) (_doc : DocStructure) : List ExtractedTable :=
  [table1]

/-- `PDFTableExtractor._verify_structure`: data non-empty and every row as
long as the header list. -/
def verify_structure (t : ExtractedTable) : Bool :=
  !t.data.isEmpty && t.data.all (fun row => row.length == t.headers.length)

/-- `PDFTableExtractor._validate_extraction`: keep the tables whose
confidence reaches the configured threshold and whose structure verifies. -/
def validate_extraction (cfg : Config) (tables : List ExtractedTable) :
    List ExtractedTable :=
  tables.filter (fun t =>
    decide (cfg.confidence_threshold ≤ t.confidence) && verify_structure t)

/-- `PDFTableExtractor._identify_section`: keyword lookup on the lower-cased
title, with the cost/budget branch tested first. -/
def identify_section (t : ExtractedTable) : String :=
  if containsSub (pyLower t.title) "cost".data || containsSub (pyLower t.title) "budget".data then
    "Financial Summary"
  else if containsSub (pyLower t.title) "milestone".data || containsSub (pyLower t.title) "schedule".data then
    "Project Timeline"
  else
    "Technical Details"

/-- The Python set `set(title.lower().split())` of title words. -/
def title_term_set (title : String) : Finset (List Char) := (pyWords title).toFinset

/-- `PDFTableExtractor._tables_related`: more than two shared lower-cased
title words. -/
def tables_related (t1 t2 : ExtractedTable) : Bool :=
  decide (2 < (title_term_set t1.title ∩ title_term_set t2.title).card)

/-- `PDFTableExtractor._find_related_tables`: titles of the other tables
(different `table_id`) that are related to `t`. -/
def find_related_tables (t : ExtractedTable) (all_tables : List ExtractedTable) :
    List String :=
  (all_tables.filter (fun o => o.table_id != t.table_id && tables_related t o)).map
    (fun o => o.title)

/-- `PDFTableExtractor._find_references`: fixed references when the title
contains the literal text `Table 1`. -/
def find_references (t : ExtractedTable) : List String :=
  if containsSub t.title.data "Table 1".data then ["Section 3.2", "Appendix A"] else []

/-- `PDFTableExtractor._enhance_context`: attach the relationships dict to
every table of the list. -/
def enhance_context (tables : List ExtractedTable) : List ExtractedTable :=
  tables.map (fun t =>
    let rel : Relationships :=
      { document_section := identify_section t,
        related_tables := find_related_tables t tables,
        references := find_references t }
    { t with relationships := some rel })

/-- `PDFTableExtractor._generate_doc_id`.  The Python code hashes the
filename (`hashlib.md5(filename.encode()).hexdigest()[:12]`); the md5
truncation is abstracted here to the filename itself — like the real id it
depends on nothing but `basename pdf_path`, which is all any claim uses. -/
def generate_doc_id (pdf_path : String) : String := basename pdf_path

/-- The `quality_metrics` dict of `PDFTableExtractor._compile_results`. -/
structure QualityMetrics where
  extraction_completeness : Nat
  title_detection_rate : Nat
  structural_integrity : Nat
  false_positive_rate : Nat
  confidence_average : ℚ
deriving DecidableEq, Repr

/-- The `comparison` dict of `PDFTableExtractor._compile_results`. -/
structure Comparison where
  vs_docling : String
  vs_scaledp : String
  advantage : String
deriving DecidableEq, Repr

/-- Fingerprint of a table structure, from `AdaptiveExtractor._hash_structure`:
the Python code renders `f"{len(headers)}_{page}_{len(data)}"` and md5-hashes
it; the formatting and md5 truncation are abstracted to the underlying triple
(header count, page, row count), which determines the Python string. -/
def Fingerprint : Type := Nat × Nat × Nat
deriving DecidableEq, Repr

/-- A novel-pattern record as built by
`AdaptiveExtractor._identify_novel_patterns` (its `structure` sub-dict is
inlined as the middle four fields). -/
structure NovelPattern where
  pattern_id : Fingerprint
  headers : List String
  column_count : Nat
  has_totals : Bool
  has_notes : Bool
  example_title : String
deriving DecidableEq, Repr

/-- The result dict of `PDFTableExtractor._compile_results`.  The
`novel_patterns` key is absent (`none`) unless `extract_and_learn` adds it. -/
structure ExtractionResult where
  document : String
  document_id : String
  extraction_timestamp : String
  tables_found : Nat
  title_accuracy : Nat
  tables : List ExtractedTable
  quality_metrics : QualityMetrics
  comparison : Comparison
  novel_patterns : Option (List NovelPattern) := none
deriving DecidableEq, Repr

/-- `PDFTableExtractor._compile_results`.  The wall-clock
`datetime.now().isoformat()` timestamp is an explicit argument. -/
def compile_results (tables : List ExtractedTable) (pdf_path : String)
    (timestamp : String) : ExtractionResult :=
  { document := basename pdf_path
    document_id := generate_doc_id pdf_path
    extraction_timestamp := timestamp
    tables_found := tables.length
    title_accuracy := 100
    tables := tables
    quality_metrics :=
      { extraction_completeness := 100
        title_detection_rate := 100
        structural_integrity := 100
        false_positive_rate := 0
        confidence_average :=
          if tables.isEmpty then 0
          else (tables.map (fun t => t.confidence)).sum / tables.length }
    comparison :=
      { vs_docling := "8.7x better title detection (100% vs 11.5%)"
        vs_scaledp := "No phantom columns or wrong titles"
        advantage := "Complete context and relationship capture" }
    novel_patterns := none }

/-- The four-stage pipeline inside `PDFTableExtractor.extract`, minus the
history side effect: reconnaissance, extraction, validation, enhancement,
then result compilation. -/
def extract_pipeline (cfg : Config) (pdf_path : String) (timestamp : String) :
    ExtractionResult :=
  compile_results
    (enhance_context
      (validate_extraction cfg (extract_tables pdf_path (analyze_structure pdf_path))))
    pdf_path timestamp

/-- The mutable state of a `PDFTableExtractor` instance. -/
structure ExtractorState where
  config : Config
  extraction_history : List ExtractionResult
deriving DecidableEq, Repr

/-- `PDFTableExtractor.__init__` with the default configuration. -/
def init_extractor (cfg : Config) : ExtractorState :=
  { config := cfg, extraction_history := [] }

/-- `PDFTableExtractor.extract`: run the pipeline, append the result to
`extraction_history`, and return it. -/
def extract (s : ExtractorState) (pdf_path : String) (timestamp : String) :
    ExtractionResult × ExtractorState :=
  let results := extract_pipeline s.config pdf_path timestamp
  (results, { s with extraction_history := s.extraction_history ++ [results] })

/-- A sequence of `extract` calls, each given as a (path, timestamp) pair. -/
def run_extracts (s : ExtractorState) (calls : List (String × String)) :
    ExtractorState :=
  calls.foldl (fun st c => (extract st c.1 c.2).2) s

/-- The `comparison` sub-dict of `PDFTableExtractor.get_extraction_stats`.
The Python float factors `0.125` and `0.8` are modelled as exact rationals,
and `int(...)` truncation of the non-negative products as `Nat` division. -/
structure StatsComparison where
  tables_correctly_titled : Nat
  tables_docling_would_title : Nat
  tables_scaledp_would_corrupt : Nat
deriving DecidableEq, Repr

/-- The statistics dict of `PDFTableExtractor.get_extraction_stats` in the
non-empty-history case. -/
structure ExtractionStats where
  documents_processed : Nat
  total_tables_extracted : Nat
  average_title_accuracy : Nat
  average_confidence : ℚ
  false_positive_rate : Nat
  comparison : StatsComparison
deriving DecidableEq, Repr

/-- `PDFTableExtractor.get_extraction_stats`: a message record
(`Except.error`) on an empty history, otherwise the statistics. -/
def get_extraction_stats (history : List ExtractionResult) :
    Except String ExtractionStats :=
  if history.isEmpty then Except.error "No extractions performed yet"
  else
    Except.ok
      { documents_processed := history.length
        total_tables_extracted := (history.map (fun r => r.tables_found)).sum
        average_title_accuracy := 100
        average_confidence :=
          (history.map (fun r => r.quality_metrics.confidence_average)).sum /
            history.length
        false_positive_rate := 0
        comparison :=
          { tables_correctly_titled := (history.map (fun r => r.tables_found)).sum
            tables_docling_would_title :=
              (history.map (fun r => r.tables_found)).sum * 125 / 1000
            tables_scaledp_would_corrupt :=
              (history.map (fun r => r.tables_found)).sum * 8 / 10 } }

/-- `AdaptiveExtractor._hash_structure` (see `Fingerprint`). -/
def hash_structure (t : ExtractedTable) : Fingerprint :=
  (t.headers.length, t.page, t.data.length)

/-- Lookup in a Python dict modelled as an ordered association list. -/
def dict_lookup (d : List (Fingerprint × NovelPattern)) (k : Fingerprint) :
    Option NovelPattern :=
  match d with
  | [] => none
  | (k0, v) :: rest => if k0 = k then some v else dict_lookup rest k

/-- Python dict assignment `d[k] = v`: overwrite an existing key in place,
otherwise append the new binding. -/
def dict_insert (d : List (Fingerprint × NovelPattern)) (k : Fingerprint)
    (v : NovelPattern) : List (Fingerprint × NovelPattern) :=
  if (dict_lookup d k).isSome then
    d.map (fun kv => if kv.1 = k then (k, v) else kv)
  else d ++ [(k, v)]

/-- The mutable state of an `AdaptiveExtractor` instance: the inherited
`PDFTableExtractor` state plus `self.learned_patterns` and
`self.novel_discoveries`. -/
structure AdaptiveState where
  base : ExtractorState
  learned_patterns : List (Fingerprint × NovelPattern)
  novel_discoveries : List (String × NovelPattern)
deriving DecidableEq, Repr

/-- `AdaptiveExtractor.__init__`. -/
def init_adaptive (cfg : Config) : AdaptiveState :=
  { base := init_extractor cfg, learned_patterns := [], novel_discoveries := [] }

/-- `AdaptiveExtractor._identify_novel_patterns`: the tables of the result
whose structural fingerprint is not yet a key of `learned_patterns`, turned
into novel-pattern records.  The running dict is not updated inside the
loop, exactly as in the Python code. -/
def identify_novel_patterns (learned : List (Fingerprint × NovelPattern))
    (results : ExtractionResult) : List NovelPattern :=
  results.tables.filterMap (fun t =>
    if (dict_lookup learned (hash_structure t)).isSome then none
    else
      some { pattern_id := hash_structure t,
             headers := t.headers,
             column_count := t.headers.length,
             has_totals := t.totals.isSome,
             has_notes := t.notes.isSome,
             example_title := t.title })

/-- `AdaptiveExtractor._learn_patterns`: insert every pattern under its
`pattern_id` and append a discovery record carrying the wall-clock
timestamp (passed explicitly). -/
def learn_patterns (s : AdaptiveState) (patterns : List NovelPattern)
    (timestamp : String) : AdaptiveState :=
  patterns.foldl
    (fun st p =>
      { st with
        learned_patterns := dict_insert st.learned_patterns p.pattern_id p,
        novel_discoveries := st.novel_discoveries ++ [(timestamp, p)] })
    s

/-- `AdaptiveExtractor.extract_and_learn`: run `extract`, then learn the
novel patterns and, when there are any, add the `novel_patterns` key to the
result.  In Python the result dict is appended to `extraction_history`
before the key is added and both references alias the same dict, so the
history entry carries the key too; the embedding appends the annotated
record. -/
def extract_and_learn (s : AdaptiveState) (pdf_path : String)
    (timestamp : String) : ExtractionResult × AdaptiveState :=
  let results := extract_pipeline s.base.config pdf_path timestamp
  let novel := identify_novel_patterns s.learned_patterns results
  let final_results :=
    if novel.isEmpty then results else { results with novel_patterns := some novel }
  let base1 : ExtractorState :=
    { s.base with extraction_history := s.base.extraction_history ++ [final_results] }
  let s1 : AdaptiveState := { s with base := base1 }
  (final_results, if novel.isEmpty then s1 else learn_patterns s1 novel timestamp)

/-! Concrete fixtures used by counterexamples and witnesses. -/

/-- A candidate with ten rows of which exactly one is short (10% anomalous)
and full confidence. -/
def ragged_row_table : ExtractedTable :=
  { table_id := 2
    page := 2
    title := "Budget Detail"
    confidence := 100
    headers := ["A", "B", "C"]
    data := List.replicate 9 ["x", "y", "z"] ++ [["x", "y"]]
    context := "" }

/-- A well-formed candidate whose confidence 94 sits between the claimed
0-to-1-scale threshold and the code's 0-to-100-scale threshold. -/
def midconf_table : ExtractedTable :=
  { table_id := 3
    page := 2
    title := "Milestone List"
    confidence := 94
    headers := ["A", "B"]
    data := [["x", "y"], ["u", "v"]]
    context := "" }

/-- Two tables with different ids but the same four-word title. -/
def twin_title_a : ExtractedTable :=
  { table_id := 1, page := 1, title := "alpha beta gamma delta",
    confidence := 100, headers := ["H"], data := [["x"]], context := "" }

/-- See `twin_title_a`. -/
def twin_title_b : ExtractedTable :=
  { table_id := 2, page := 2, title := "alpha beta gamma delta",
    confidence := 100, headers := ["H"], data := [["x"]], context := "" }

/-- Two related tables with distinct titles sharing four words. -/
def summary_table : ExtractedTable :=
  { table_id := 1, page := 1, title := "project costs summary table overview",
    confidence := 100, headers := ["H"], data := [["x"]], context := "" }

/-- See `summary_table`. -/
def detail_table : ExtractedTable :=
  { table_id := 2, page := 2, title := "project costs detail table overview",
    confidence := 100, headers := ["H"], data := [["x"]], context := "" }

/-- Two tables whose titles share exactly the four words of, the, and, in. -/
def stopword_table_a : ExtractedTable :=
  { table_id := 1, page := 1, title := "report of the and in alpha",
    confidence := 100, headers := ["H"], data := [["x"]], context := "" }

/-- See `stopword_table_a`. -/
def stopword_table_b : ExtractedTable :=
  { table_id := 2, page := 2, title := "summary of the and in beta",
    confidence := 100, headers := ["H"], data := [["x"]], context := "" }

/-- Modelled from the spec: the LEXICAL_OVERLAP rule of the relationship
linker excludes stopwords from the title token sets, but the spec names no
concrete stopword list; this is a minimal standard English list.  Any list
containing the words of, the, and, in yields the same comparison below. -/
def spec_stopwords : Finset (List Char) :=
  (["a", "an", "the", "of", "and", "or", "in", "on", "for", "to",
    "by", "with"].map String.data).toFinset

/-- Modelled from the spec: relatedness as the spec words it — the
intersection of the lowercased title token sets with stopwords excluded has
size strictly greater than 2. -/
def spec_tables_related (t1 t2 : ExtractedTable) : Bool :=
  decide (2 < ((title_term_set t1.title \ spec_stopwords) ∩
    (title_term_set t2.title \ spec_stopwords)).card)

/-- A configuration whose threshold rejects even the hard-coded table. -/
def high_threshold_config : Config :=
  { default_config with confidence_threshold := 101 }

/-- The novel-pattern record that learning the hard-coded `table1`
produces: fingerprint (3 headers, page 1, 5 rows). -/
def table1_pattern : NovelPattern :=
  { pattern_id := (3, 1, 5)
    headers := table1.headers
    column_count := 3
    has_totals := true
    has_notes := true
    example_title := table1.title }

/-- The adaptive state after one `extract_and_learn` call, in which the
hard-coded table's fingerprint has been learned. -/
def learned_state : AdaptiveState :=
  (extract_and_learn (init_adaptive default_config) "a.pdf" "t1").2

/-- One concrete extraction result, for the statistics witness. -/
def sample_result : ExtractionResult :=
  extract_pipeline default_config "a.pdf" "2026-01-01T00:00:00"

end ClaudePdf

namespace ClaudePdf

/-! Helper lemmas shared by the claim theorems. -/

/-- `verify_structure` succeeds exactly on non-empty data whose rows all
match the header length. -/
theorem verify_structure_iff (t : ExtractedTable) :
    verify_structure t = true ↔
      t.data ≠ [] ∧ ∀ row ∈ t.data, row.length = t.headers.length := by
  simp [verify_structure, List.all_eq_true]

/-- Membership in the validated output, characterised. -/
theorem mem_validate_iff (cfg : Config) (tables : List ExtractedTable)
    (t : ExtractedTable) :
    t ∈ validate_extraction cfg tables ↔
      t ∈ tables ∧ cfg.confidence_threshold ≤ t.confidence ∧ t.data ≠ [] ∧
        ∀ row ∈ t.data, row.length = t.headers.length := by
  simp [validate_extraction, List.mem_filter, verify_structure, List.all_eq_true,
    and_assoc]

/-- `tables_related` is symmetric, since set intersection is. -/
theorem tables_related_comm (a b : ExtractedTable) :
    tables_related a b = tables_related b a := by
  simp only [tables_related]
  rw [Finset.inter_comm]

/-- Membership in `find_related_tables`, characterised. -/
theorem mem_find_related_iff (A : ExtractedTable) (ts : List ExtractedTable)
    (x : String) :
    x ∈ find_related_tables A ts ↔
      ∃ o, o ∈ ts ∧ o.table_id ≠ A.table_id ∧ tables_related A o = true ∧
        o.title = x := by
  simp only [find_related_tables, List.mem_map, List.mem_filter,
    Bool.and_eq_true, bne_iff_ne, ne_eq]
  constructor
  · rintro ⟨o, ⟨ho, hid, hrel⟩, ht⟩
    exact ⟨o, ho, hid, hrel, ht⟩
  · rintro ⟨o, ho, hid, hrel, ht⟩
    exact ⟨o, ⟨ho, hid, hrel⟩, ht⟩

/-- In a pairwise-distinctly-titled list, a title determines the table. -/
theorem title_unique {ts : List ExtractedTable}
    (ht : ts.Pairwise (fun a b => a.title ≠ b.title)) :
    ∀ o ∈ ts, ∀ b ∈ ts, o.title = b.title → o = b := by
  intro o ho b hb heq
  by_contra hne
  have hsymm : Symmetric (fun a b : ExtractedTable => a.title ≠ b.title) :=
    fun _ _ hxy h => hxy h.symm
  exact ht.forall hsymm ho hb hne heq

/-- The number of distinct words of one list that occur in another equals
the cardinality of the intersection of the corresponding finsets. -/
theorem length_filter_dedup (l1 l2 : List (List Char)) :
    (l1.dedup.filter (fun w => decide (w ∈ l2))).length =
      (l1.toFinset ∩ l2.toFinset).card := by
  rw [← List.toFinset_card_of_nodup ((l1.nodup_dedup).filter _)]
  congr 1
  ext x
  simp [List.mem_filter, List.mem_dedup]

/-- Lookup after an overwrite-map, at another key. -/
theorem lookup_map_ne (d : List (Fingerprint × NovelPattern)) (k k' : Fingerprint)
    (v : NovelPattern) (h : k' ≠ k) :
    dict_lookup (d.map (fun kv => if kv.1 = k then (k, v) else kv)) k' =
      dict_lookup d k' := by
  induction d with
  | nil => rfl
  | cons kv rest ih =>
    rw [List.map_cons]
    by_cases hk : kv.1 = k
    · have h1 : ¬ (k = k') := fun hc => h hc.symm
      have h2 : ¬ (kv.1 = k') := by rw [hk]; exact h1
      rw [if_pos hk, dict_lookup, dict_lookup, if_neg h1, if_neg h2, ih]
    · rw [if_neg hk, dict_lookup, dict_lookup, ih]

/-- Lookup after appending a fresh binding, at another key. -/
theorem lookup_append_ne (d : List (Fingerprint × NovelPattern)) (k k' : Fingerprint)
    (v : NovelPattern) (h : k' ≠ k) :
    dict_lookup (d ++ [(k, v)]) k' = dict_lookup d k' := by
  induction d with
  | nil =>
    show dict_lookup [(k, v)] k' = dict_lookup [] k'
    simp [dict_lookup, Ne.symm h]
  | cons kv rest ih =>
    rw [List.cons_append, dict_lookup, dict_lookup]
    split
    · rfl
    · exact ih

/-- Lookup after an overwrite-map, at the overwritten key. -/
theorem lookup_map_self (d : List (Fingerprint × NovelPattern)) (k : Fingerprint)
    (v : NovelPattern) (hsome : (dict_lookup d k).isSome = true) :
    dict_lookup (d.map (fun kv => if kv.1 = k then (k, v) else kv)) k = some v := by
  induction d with
  | nil => simp [dict_lookup] at hsome
  | cons kv rest ih =>
    rw [List.map_cons]
    by_cases hk : kv.1 = k
    · rw [if_pos hk, dict_lookup, if_pos rfl]
    · rw [dict_lookup, if_neg hk] at hsome
      rw [if_neg hk, dict_lookup, if_neg hk]
      exact ih hsome

/-- Lookup after appending a fresh binding, at its key. -/
theorem lookup_append_self (d : List (Fingerprint × NovelPattern)) (k : Fingerprint)
    (v : NovelPattern) (hnone : dict_lookup d k = none) :
    dict_lookup (d ++ [(k, v)]) k = some v := by
  induction d with
  | nil =>
    show dict_lookup [(k, v)] k = some v
    rw [dict_lookup, if_pos rfl]
  | cons kv rest ih =>
    rw [dict_lookup] at hnone
    by_cases hk : kv.1 = k
    · rw [if_pos hk] at hnone
      exact absurd hnone (by simp)
    · rw [if_neg hk] at hnone
      rw [List.cons_append, dict_lookup, if_neg hk]
      exact ih hnone

/-- Python dict assignment: the assigned key maps to the new value. -/
theorem dict_lookup_insert_self (d : List (Fingerprint × NovelPattern))
    (k : Fingerprint) (v : NovelPattern) :
    dict_lookup (dict_insert d k v) k = some v := by
  unfold dict_insert
  split
  · next hsome => exact lookup_map_self d k v hsome
  · next hnone =>
    apply lookup_append_self
    simpa using hnone

/-- Python dict assignment: every other key is untouched. -/
theorem dict_lookup_insert_ne (d : List (Fingerprint × NovelPattern))
    (k k' : Fingerprint) (v : NovelPattern) (h : k' ≠ k) :
    dict_lookup (dict_insert d k v) k' = dict_lookup d k' := by
  unfold dict_insert
  split
  · exact lookup_map_ne d k k' v h
  · exact lookup_append_ne d k k' v h

/-- One step of the learning fold. -/
theorem learn_patterns_cons (s : AdaptiveState) (p : NovelPattern)
    (rest : List NovelPattern) (ts : String) :
    learn_patterns s (p :: rest) ts =
      learn_patterns
        { s with
          learned_patterns := dict_insert s.learned_patterns p.pattern_id p,
          novel_discoveries := s.novel_discoveries ++ [(ts, p)] } rest ts := rfl

/-- Learning patterns whose ids avoid `k` keeps `k`'s record unchanged. -/
theorem learn_keeps (patterns : List NovelPattern) (s : AdaptiveState) (ts : String)
    (k : Fingerprint) (v : NovelPattern)
    (hv : dict_lookup s.learned_patterns k = some v)
    (hids : ∀ p ∈ patterns, p.pattern_id ≠ k) :
    dict_lookup (learn_patterns s patterns ts).learned_patterns k = some v := by
  induction patterns generalizing s with
  | nil => exact hv
  | cons p rest ih =>
    rw [learn_patterns_cons]
    apply ih
    · show dict_lookup (dict_insert s.learned_patterns p.pattern_id p) k = some v
      rw [dict_lookup_insert_ne _ _ _ _ (Ne.symm (hids p (List.mem_cons_self p rest)))]
      exact hv
    · intro q hq
      exact hids q (List.mem_cons_of_mem p hq)

/-- Learning never makes a present key absent. -/
theorem learn_preserves_isSome (patterns : List NovelPattern) (s : AdaptiveState)
    (ts : String) (k : Fingerprint)
    (h : (dict_lookup s.learned_patterns k).isSome = true) :
    (dict_lookup (learn_patterns s patterns ts).learned_patterns k).isSome = true := by
  induction patterns generalizing s with
  | nil => exact h
  | cons p rest ih =>
    rw [learn_patterns_cons]
    apply ih
    show (dict_lookup (dict_insert s.learned_patterns p.pattern_id p) k).isSome = true
    by_cases hk : k = p.pattern_id
    · subst hk
      rw [dict_lookup_insert_self]
      rfl
    · rw [dict_lookup_insert_ne _ _ _ _ hk]
      exact h

/-- Every learned pattern's key is present afterwards. -/
theorem learn_adds (patterns : List NovelPattern) (s : AdaptiveState) (ts : String)
    (np : NovelPattern) (h : np ∈ patterns) :
    (dict_lookup (learn_patterns s patterns ts).learned_patterns np.pattern_id).isSome
      = true := by
  induction patterns generalizing s with
  | nil => cases h
  | cons p rest ih =>
    rw [learn_patterns_cons]
    rcases List.mem_cons.mp h with rfl | hmem
    · apply learn_preserves_isSome
      show (dict_lookup (dict_insert s.learned_patterns np.pattern_id np)
        np.pattern_id).isSome = true
      rw [dict_lookup_insert_self]
      rfl
    · exact ih _ hmem

/-- A reported novel pattern is keyed by a fingerprint unseen so far. -/
theorem novel_pattern_unseen (learned : List (Fingerprint × NovelPattern))
    (results : ExtractionResult) (np : NovelPattern)
    (h : np ∈ identify_novel_patterns learned results) :
    dict_lookup learned np.pattern_id = none := by
  simp only [identify_novel_patterns, List.mem_filterMap] at h
  obtain ⟨t, _, heq⟩ := h
  by_cases hk : (dict_lookup learned (hash_structure t)).isSome = true
  · rw [if_pos hk] at heq
    cases heq
  · rw [if_neg hk] at heq
    injection heq with heq2
    subst heq2
    exact Option.not_isSome_iff_eq_none.mp hk

/-- The result component of `extract_and_learn`, characterised. -/
theorem extract_and_learn_fst (s : AdaptiveState) (p ts : String) :
    (extract_and_learn s p ts).1 =
      (if (identify_novel_patterns s.learned_patterns
            (extract_pipeline s.base.config p ts)).isEmpty
       then extract_pipeline s.base.config p ts
       else { extract_pipeline s.base.config p ts with
              novel_patterns := some (identify_novel_patterns s.learned_patterns
                (extract_pipeline s.base.config p ts)) }) := rfl

/-- The state component of `extract_and_learn`, characterised. -/
theorem extract_and_learn_snd (s : AdaptiveState) (p ts : String) :
    (extract_and_learn s p ts).2 =
      (let final_results :=
        if (identify_novel_patterns s.learned_patterns
            (extract_pipeline s.base.config p ts)).isEmpty
        then extract_pipeline s.base.config p ts
        else { extract_pipeline s.base.config p ts with
               novel_patterns := some (identify_novel_patterns s.learned_patterns
                 (extract_pipeline s.base.config p ts)) }
      let s1 : AdaptiveState :=
        { s with base := { s.base with extraction_history :=
            s.base.extraction_history ++ [final_results] } }
      if (identify_novel_patterns s.learned_patterns
          (extract_pipeline s.base.config p ts)).isEmpty
      then s1
      else learn_patterns s1 (identify_novel_patterns s.learned_patterns
        (extract_pipeline s.base.config p ts)) ts) := rfl

/-- `extract` alone never sets the `novel_patterns` key. -/
theorem extract_pipeline_no_novel_key (cfg : Config) (p ts : String) :
    (extract_pipeline cfg p ts).novel_patterns = none := rfl

end ClaudePdf

namespace ClaudePdf

/-! The claim theorems. -/

/-- Claim C1: `PDFTableExtractor.extract` returns hard-coded, pre-fabricated
results independent of the input path: the method's return value is the pure
pipeline of its configuration, and for any two calls on any paths and
timestamps the `tables`, `tables_found`, `title_accuracy`, `quality_metrics`
and `comparison` fields are identical — only `document`, `document_id` and
`extraction_timestamp` depend on the path or time — so in particular every
resolved title is deterministic across repeated runs with the same
configuration. -/
theorem extract_results_input_independent (s : ExtractorState) (cfg : Config)
    (p1 ts1 p2 ts2 : String) :
    (extract s p1 ts1).1 = extract_pipeline s.config p1 ts1 ∧
    (extract_pipeline cfg p1 ts1).tables = (extract_pipeline cfg p2 ts2).tables ∧
    (extract_pipeline cfg p1 ts1).tables_found =
      (extract_pipeline cfg p2 ts2).tables_found ∧
    (extract_pipeline cfg p1 ts1).title_accuracy =
      (extract_pipeline cfg p2 ts2).title_accuracy ∧
    (extract_pipeline cfg p1 ts1).quality_metrics =
      (extract_pipeline cfg p2 ts2).quality_metrics ∧
    (extract_pipeline cfg p1 ts1).comparison =
      (extract_pipeline cfg p2 ts2).comparison ∧
    (extract_pipeline cfg p1 ts1).tables.map (fun t => t.title) =
      (extract_pipeline cfg p2 ts2).tables.map (fun t => t.title) :=
  ⟨rfl, rfl, rfl, rfl, rfl, rfl, rfl⟩

/-- Claim C2, counterexample: the code has no repair path and its default
threshold is 95 on a 0-to-100 scale, not 0.95 on a 0-to-1 scale.  A
full-confidence candidate with exactly one of ten rows anomalous (10%, which
the claim says is accepted with repair) is excluded from the validated
output, and a well-formed candidate with confidence 94 (above any 0-to-1
threshold) is excluded as well. -/
theorem validation_no_repair_counterexample :
    validate_extraction default_config [ragged_row_table] = [] ∧
    ragged_row_table.data.length = 10 ∧
    (ragged_row_table.data.filter
        (fun r => r.length != ragged_row_table.headers.length)).length = 1 ∧
    default_config.confidence_threshold ≤ ragged_row_table.confidence ∧
    validate_extraction default_config [midconf_table] = [] ∧
    (1 : ℚ) ≤ midconf_table.confidence ∧ midconf_table.confidence < 95 ∧
    midconf_table.data ≠ [] ∧
    (∀ r ∈ midconf_table.data, r.length = midconf_table.headers.length) := by
  decide

/-- Claim C2, amended: a candidate is in the validated output exactly when
its confidence reaches the configured threshold (default 95 on a 0-to-100
scale), its data is non-empty, and every row has the header length; an
accepted candidate is passed through unchanged and any anomaly — even a
single ragged row — causes outright rejection, never repair. -/
theorem validation_verdict_rule :
    (∀ (cfg : Config) (tables : List ExtractedTable) (t : ExtractedTable),
      t ∈ validate_extraction cfg tables ↔
        t ∈ tables ∧ cfg.confidence_threshold ≤ t.confidence ∧ t.data ≠ [] ∧
          ∀ row ∈ t.data, row.length = t.headers.length) ∧
    default_config.confidence_threshold = 95 :=
  ⟨mem_validate_iff, rfl⟩

/-- Witness for `validation_verdict_rule` at the hard-coded table. -/
theorem validation_verdict_rule_witness :
    (table1 ∈ validate_extraction default_config [table1] ↔
      table1 ∈ [table1] ∧ default_config.confidence_threshold ≤ table1.confidence ∧
        table1.data ≠ [] ∧ ∀ row ∈ table1.data, row.length = table1.headers.length) ∧
    default_config.confidence_threshold = 95 :=
  ⟨validation_verdict_rule.1 default_config [table1] table1,
   validation_verdict_rule.2⟩

/-- Claim C3: every table in the validated output has non-empty data, and
every one of its rows has length equal to the table's column count (the
header length) — no accepted table is ragged or empty. -/
theorem accepted_tables_rectangular (cfg : Config) (tables : List ExtractedTable)
    (t : ExtractedTable) (h : t ∈ validate_extraction cfg tables) :
    t.data ≠ [] ∧ ∀ row ∈ t.data, row.length = t.headers.length :=
  ((mem_validate_iff cfg tables t).mp h).2.2

/-- Witness for `accepted_tables_rectangular`: the hard-coded table is in
the validated output under the default configuration. -/
theorem accepted_tables_rectangular_witness :
    table1 ∈ validate_extraction default_config [table1] ∧
    (table1.data ≠ [] ∧ ∀ row ∈ table1.data, row.length = table1.headers.length) :=
  ⟨by decide, accepted_tables_rectangular default_config [table1] table1 (by decide)⟩

/-- Claim C4, counterexample: with two tables of distinct `table_id` but
identical four-word titles, each enhanced table lists its own title among
its `related_tables` — the no-self-edge part of the claim fails. -/
theorem self_related_title_counterexample :
    (enhance_context [twin_title_a, twin_title_b]).map
        (fun t => ((t.relationships.map (fun r => r.related_tables)), t.title)) =
      [(some ["alpha beta gamma delta"], "alpha beta gamma delta"),
       (some ["alpha beta gamma delta"], "alpha beta gamma delta")] ∧
    twin_title_a.table_id ≠ twin_title_b.table_id := by
  decide

/-- Claim C4, amended: for tables with pairwise-distinct titles,
relationship edges are symmetric — B's title appears in A's
`related_tables` exactly when A's title appears in B's — and no table lists
its own title among its related tables. -/
theorem related_tables_symmetric_irreflexive (ts : List ExtractedTable)
    (ht : ts.Pairwise (fun a b => a.title ≠ b.title)) :
    (∀ A ∈ ts, ∀ B ∈ ts, A ≠ B →
        (B.title ∈ find_related_tables A ts ↔ A.title ∈ find_related_tables B ts)) ∧
    (∀ A ∈ ts, A.title ∉ find_related_tables A ts) := by
  constructor
  · intro A hA B hB _
    rw [mem_find_related_iff, mem_find_related_iff]
    constructor
    · rintro ⟨o, ho, hid, hrel, htitle⟩
      have hoB : o = B := title_unique ht o ho B hB htitle
      subst hoB
      refine ⟨A, hA, fun hcontra => hid hcontra.symm, ?_, rfl⟩
      rw [tables_related_comm]
      exact hrel
    · rintro ⟨o, ho, hid, hrel, htitle⟩
      have hoA : o = A := title_unique ht o ho A hA htitle
      subst hoA
      refine ⟨B, hB, fun hcontra => hid hcontra.symm, ?_, rfl⟩
      rw [tables_related_comm]
      exact hrel
  · intro A hA hmem
    rw [mem_find_related_iff] at hmem
    obtain ⟨o, ho, hid, _, htitle⟩ := hmem
    exact hid (congrArg ExtractedTable.table_id (title_unique ht o ho A hA htitle))

/-- Witness for `related_tables_symmetric_irreflexive` on two concrete
related tables with distinct titles. -/
theorem related_tables_symmetric_irreflexive_witness :
    ([summary_table, detail_table].Pairwise (fun a b => a.title ≠ b.title)) ∧
    ((∀ A ∈ [summary_table, detail_table], ∀ B ∈ [summary_table, detail_table],
        A ≠ B →
        (B.title ∈ find_related_tables A [summary_table, detail_table] ↔
          A.title ∈ find_related_tables B [summary_table, detail_table])) ∧
     (∀ A ∈ [summary_table, detail_table],
        A.title ∉ find_related_tables A [summary_table, detail_table])) :=
  ⟨by decide,
   related_tables_symmetric_irreflexive [summary_table, detail_table] (by decide)⟩

/-- Claim C5, counterexample: two tables whose titles share only the
stopwords of, the, and, in are classified related by the code, while the
spec's stopword-excluding rule leaves an empty intersection — the code
performs no stopword exclusion. -/
theorem stopword_overlap_counterexample :
    tables_related stopword_table_a stopword_table_b = true ∧
    spec_tables_related stopword_table_a stopword_table_b = false ∧
    ((title_term_set stopword_table_a.title \ spec_stopwords) ∩
      (title_term_set stopword_table_b.title \ spec_stopwords)).card = 0 := by
  decide

/-- Claim C5, amended: two tables are classified related exactly when more
than two distinct lower-cased whitespace-separated title words are shared —
with no stopword exclusion. -/
theorem lexical_overlap_rule (t1 t2 : ExtractedTable) :
    tables_related t1 t2 = true ↔
      2 < ((pyWords t1.title).dedup.filter
        (fun w => decide (w ∈ pyWords t2.title))).length := by
  rw [tables_related, decide_eq_true_iff, length_filter_dedup]
  rfl

/-- Claim C6: section classification is a total function over titles with
the fixed keyword mapping — every table gets exactly one of the three
labels: Financial Summary exactly when the lower-cased title mentions cost
or budget (this branch wins any tie), Project Timeline exactly when it
mentions milestone or schedule and no cost/budget keyword, and Technical
Details otherwise. -/
theorem section_classification_total (t : ExtractedTable) :
    (identify_section t = "Financial Summary" ∨ identify_section t = "Project Timeline" ∨
      identify_section t = "Technical Details") ∧
    (identify_section t = "Financial Summary" ↔
      (containsSub (pyLower t.title) "cost".data ||
        containsSub (pyLower t.title) "budget".data) = true) ∧
    (identify_section t = "Project Timeline" ↔
      ((containsSub (pyLower t.title) "cost".data ||
          containsSub (pyLower t.title) "budget".data) = false ∧
       (containsSub (pyLower t.title) "milestone".data ||
          containsSub (pyLower t.title) "schedule".data) = true)) ∧
    (identify_section t = "Technical Details" ↔
      ((containsSub (pyLower t.title) "cost".data ||
          containsSub (pyLower t.title) "budget".data) = false ∧
       (containsSub (pyLower t.title) "milestone".data ||
          containsSub (pyLower t.title) "schedule".data) = false)) := by
  cases hcb : (containsSub (pyLower t.title) "cost".data ||
      containsSub (pyLower t.title) "budget".data) <;>
    cases hms : (containsSub (pyLower t.title) "milestone".data ||
        containsSub (pyLower t.title) "schedule".data) <;>
      simp [identify_section, hcb, hms]

/-- Claim C7: a document yielding zero validated tables still completes
normally — the result has an empty `tables` list, `tables_found` 0 and a
`confidence_average` of 0, the empty-list guard avoiding any division by
zero. -/
theorem zero_tables_completes (cfg : Config) (p ts : String)
    (h : validate_extraction cfg (extract_tables p (analyze_structure p)) = []) :
    (extract_pipeline cfg p ts).tables = [] ∧
    (extract_pipeline cfg p ts).tables_found = 0 ∧
    (extract_pipeline cfg p ts).quality_metrics.confidence_average = 0 := by
  unfold extract_pipeline
  rw [h]
  exact ⟨rfl, rfl, rfl⟩

/-- Witness for `zero_tables_completes` with a threshold that rejects the
hard-coded table. -/
theorem zero_tables_completes_witness :
    validate_extraction high_threshold_config
        (extract_tables "missing.pdf" (analyze_structure "missing.pdf")) = [] ∧
    ((extract_pipeline high_threshold_config "missing.pdf" "t").tables = [] ∧
     (extract_pipeline high_threshold_config "missing.pdf" "t").tables_found = 0 ∧
     (extract_pipeline high_threshold_config "missing.pdf"
        "t").quality_metrics.confidence_average = 0) :=
  ⟨by decide, zero_tables_completes high_threshold_config "missing.pdf" "t" (by decide)⟩

/-- Claim C8: pattern learning never rejects or alters extraction output —
the result of `AdaptiveExtractor.extract_and_learn` agrees with the plain
extraction pipeline on `tables`, `tables_found`, `quality_metrics` and every
other field; learning only may add the `novel_patterns` key and update the
side-channel pattern store. -/
theorem learning_preserves_extraction (s : AdaptiveState) (p ts : String) :
    (extract_and_learn s p ts).1.tables = (extract_pipeline s.base.config p ts).tables ∧
    (extract_and_learn s p ts).1.tables_found =
      (extract_pipeline s.base.config p ts).tables_found ∧
    (extract_and_learn s p ts).1.quality_metrics =
      (extract_pipeline s.base.config p ts).quality_metrics ∧
    (extract_and_learn s p ts).1.document =
      (extract_pipeline s.base.config p ts).document ∧
    (extract_and_learn s p ts).1.document_id =
      (extract_pipeline s.base.config p ts).document_id ∧
    (extract_and_learn s p ts).1.extraction_timestamp =
      (extract_pipeline s.base.config p ts).extraction_timestamp ∧
    (extract_and_learn s p ts).1.title_accuracy =
      (extract_pipeline s.base.config p ts).title_accuracy ∧
    (extract_and_learn s p ts).1.comparison =
      (extract_pipeline s.base.config p ts).comparison := by
  unfold extract_and_learn
  by_cases h : (identify_novel_patterns s.learned_patterns
      (extract_pipeline s.base.config p ts)).isEmpty <;>
    simp [h]

/-- Claim C9, counterexample: on re-sight of an already-learned fingerprint
the store is left completely unchanged — the record carries no occurrence
count and nothing is incremented (the second call on the same path reports
nothing novel and rewrites nothing). -/
theorem no_occurrence_count_counterexample :
    (extract_and_learn learned_state "a.pdf" "t2").2.learned_patterns =
      learned_state.learned_patterns ∧
    (extract_and_learn learned_state "a.pdf" "t2").1.novel_patterns = none ∧
    learned_state.learned_patterns = [((3, 1, 5), table1_pattern)] := by
  decide

/-- Claim C9, amended: the learned-pattern store grows monotonically — a
previously learned fingerprint keeps exactly its existing record across any
`extract_and_learn` call (never evicted, never overwritten), a fingerprint
already in the store is never reported as novel again, and every reported
novel fingerprint is inserted into the store by the call that reports it. -/
theorem pattern_store_monotone :
    (∀ (s : AdaptiveState) (p ts : String) (k : Fingerprint) (v : NovelPattern),
        dict_lookup s.learned_patterns k = some v →
        dict_lookup ((extract_and_learn s p ts).2.learned_patterns) k = some v) ∧
    (∀ (s : AdaptiveState) (p ts : String) (k : Fingerprint),
        (dict_lookup s.learned_patterns k).isSome = true →
        ∀ nps, (extract_and_learn s p ts).1.novel_patterns = some nps →
          ∀ np ∈ nps, np.pattern_id ≠ k) ∧
    (∀ (s : AdaptiveState) (p ts : String) (np : NovelPattern),
        np ∈ identify_novel_patterns s.learned_patterns
          (extract_pipeline s.base.config p ts) →
        (dict_lookup ((extract_and_learn s p ts).2.learned_patterns)
          np.pattern_id).isSome = true) := by
  refine ⟨?_, ?_, ?_⟩
  · intro s p ts k v hv
    rw [extract_and_learn_snd]
    by_cases h : (identify_novel_patterns s.learned_patterns
        (extract_pipeline s.base.config p ts)).isEmpty
    · rw [if_pos h]
      exact hv
    · rw [if_neg h]
      refine learn_keeps _ _ _ _ _ ?_ ?_
      · exact hv
      · intro q hq hqk
        have hnone := novel_pattern_unseen _ _ _ hq
        rw [hqk, hv] at hnone
        cases hnone
  · intro s p ts k hk nps hnps np hnp hpk
    rw [extract_and_learn_fst] at hnps
    by_cases h : (identify_novel_patterns s.learned_patterns
        (extract_pipeline s.base.config p ts)).isEmpty
    · rw [if_pos h, extract_pipeline_no_novel_key] at hnps
      cases hnps
    · rw [if_neg h] at hnps
      have hnn : some (identify_novel_patterns s.learned_patterns
          (extract_pipeline s.base.config p ts)) = some nps := hnps
      injection hnn with hnn2
      subst hnn2
      have hnone := novel_pattern_unseen _ _ _ hnp
      rw [hpk] at hnone
      rw [hnone] at hk
      cases hk
  · intro s p ts np hnp
    have hne : ¬ (identify_novel_patterns s.learned_patterns
        (extract_pipeline s.base.config p ts)).isEmpty = true := by
      intro hc
      rw [List.isEmpty_iff] at hc
      rw [hc] at hnp
      cases hnp
    rw [extract_and_learn_snd]
    rw [if_neg hne]
    exact learn_adds _ _ _ _ hnp

/-- Witness for `pattern_store_monotone`: the fingerprint learned by a
first call survives a second call unchanged, and the first call both
reports and inserts it. -/
theorem pattern_store_monotone_witness :
    (dict_lookup learned_state.learned_patterns (3, 1, 5) = some table1_pattern ∧
     dict_lookup ((extract_and_learn learned_state "b.pdf" "t2").2.learned_patterns)
       (3, 1, 5) = some table1_pattern) ∧
    (table1_pattern ∈ identify_novel_patterns
        (init_adaptive default_config).learned_patterns
        (extract_pipeline (init_adaptive default_config).base.config "a.pdf" "t1") ∧
     (dict_lookup ((extract_and_learn (init_adaptive default_config) "a.pdf"
        "t1").2.learned_patterns) table1_pattern.pattern_id).isSome = true) :=
  ⟨⟨by decide,
    pattern_store_monotone.1 learned_state "b.pdf" "t2" (3, 1, 5) table1_pattern
      (by decide)⟩,
   ⟨by decide,
    pattern_store_monotone.2.2 (init_adaptive default_config) "a.pdf" "t1"
      table1_pattern (by decide)⟩⟩

/-- Claim C10: `get_extraction_stats` is total and never divides by zero —
an empty history yields the message record, a non-empty history yields
`documents_processed` equal to the history length, `total_tables_extracted`
the sum of `tables_found`, and `average_confidence` the mean of the
per-document confidence averages; and the history length equals the number
of `extract` calls performed. -/
theorem extraction_stats_total :
    (get_extraction_stats [] = Except.error "No extractions performed yet") ∧
    (∀ history : List ExtractionResult, history ≠ [] →
        get_extraction_stats history = Except.ok
          { documents_processed := history.length,
            total_tables_extracted := (history.map (fun r => r.tables_found)).sum,
            average_title_accuracy := 100,
            average_confidence :=
              (history.map (fun r => r.quality_metrics.confidence_average)).sum /
                history.length,
            false_positive_rate := 0,
            comparison :=
              { tables_correctly_titled := (history.map (fun r => r.tables_found)).sum,
                tables_docling_would_title :=
                  (history.map (fun r => r.tables_found)).sum * 125 / 1000,
                tables_scaledp_would_corrupt :=
                  (history.map (fun r => r.tables_found)).sum * 8 / 10 } }) ∧
    (∀ (s : ExtractorState) (calls : List (String × String)),
        (run_extracts s calls).extraction_history.length =
          s.extraction_history.length + calls.length) := by
  refine ⟨rfl, ?_, ?_⟩
  · intro history h
    rw [get_extraction_stats, if_neg]
    simpa using h
  · intro s calls
    induction calls generalizing s with
    | nil => rfl
    | cons c rest ih =>
      show (run_extracts (extract s c.1 c.2).2 rest).extraction_history.length =
        s.extraction_history.length + (c :: rest).length
      rw [ih]
      simp [extract]
      omega

/-- Witness for `extraction_stats_total` on a one-element history. -/
theorem extraction_stats_total_witness :
    ([sample_result] ≠ ([] : List ExtractionResult)) ∧
    get_extraction_stats [sample_result] = Except.ok
      { documents_processed := [sample_result].length,
        total_tables_extracted := ([sample_result].map (fun r => r.tables_found)).sum,
        average_title_accuracy := 100,
        average_confidence :=
          ([sample_result].map (fun r => r.quality_metrics.confidence_average)).sum /
            [sample_result].length,
        false_positive_rate := 0,
        comparison :=
          { tables_correctly_titled :=
              ([sample_result].map (fun r => r.tables_found)).sum,
            tables_docling_would_title :=
              ([sample_result].map (fun r => r.tables_found)).sum * 125 / 1000,
            tables_scaledp_would_corrupt :=
              ([sample_result].map (fun r => r.tables_found)).sum * 8 / 10 } } :=
  ⟨by simp, extraction_stats_total.2.1 [sample_result] (by simp)⟩

end ClaudePdf
